import Mathlib

/-!
Shallow embedding of the twilight gateway shard subsystem (session rate
limiting, latency tracking, shard builder, cluster routing) together with
proofs about the embedded operations.

Machine integers are modelled as Nat. Where the Rust code performs an
operation whose overflow wraps in a release build, the wrap is written as
an explicit remainder by the width (for u8 arithmetic, by 256). Where the
Rust operator itself faults for every build (division by a zero divisor),
the operation is modelled in Option, with none standing for the fault.
-/

namespace Twilight

/-- Rust integer division operator on u64: faults when the divisor is
zero, otherwise truncating division. -/
def u64Div (a b : Nat) : Option Nat :=
  if b = 0 then none else some (a / b)

/-- Rust integer remainder operator on u64: faults when the divisor is
zero, otherwise the remainder. -/
def u64Mod (a b : Nat) : Option Nat :=
  if b = 0 then none else some (a % b)

/-- Interval of how often the ratelimit bucket resets, in milliseconds
(constant RESET_DURATION_MILLISECONDS in shard/processor/session.rs). -/
def RESET_DURATION_MILLISECONDS : Nat := 60000

/-- Number of commands allowed in a given reset period (constant
COMMANDS_PER_RESET inside available_commands_per_interval). -/
def COMMANDS_PER_RESET : Nat := 120

/-- Fallback used when the heartbeat count does not fit in u8 (constant
ALLOT_ON_FAIL, defined as COMMANDS_PER_RESET - 10). -/
def ALLOT_ON_FAIL : Nat := COMMANDS_PER_RESET - 10

/-- Embedding of fn available_commands_per_interval(heartbeat_interval: u64)
-> u8 from shard/processor/session.rs. The two division operators fault on
a zero interval (none). The final expression doubles the converted count
in u8 arithmetic: in a release build the product wraps, written here as an
explicit remainder by 256; saturating_sub on Nat is plain truncated
subtraction. -/
def available_commands_per_interval (heartbeat_interval : Nat) : Option Nat := do
  let heartbeats0 ← u64Div RESET_DURATION_MILLISECONDS heartbeat_interval
  let remainder ← u64Mod RESET_DURATION_MILLISECONDS heartbeat_interval
  -- If we have a remainder then we reserve an additional heartbeat.
  let heartbeats := if remainder > 0 then heartbeats0 + 1 else heartbeats0
  -- u8::try_from(heartbeats): succeeds exactly when heartbeats <= 255,
  -- otherwise the code falls back to ALLOT_ON_FAIL and logs a warning.
  let heartbeats_converted := if heartbeats ≤ 255 then heartbeats else ALLOT_ON_FAIL
  some (COMMANDS_PER_RESET - heartbeats_converted * 2 % 256)

/-- Heartbeats reserved per reset window as the source computes it: the
truncating quotient plus one more when a remainder is left over. -/
def heartbeatsPerWindow (i : Nat) : Nat :=
  RESET_DURATION_MILLISECONDS / i + (if RESET_DURATION_MILLISECONDS % i > 0 then 1 else 0)

/-- Modelled from the spec: the closed-form allotment of section 4.2,
allotted = 120 - 2 * ceil(60000 / interval), with the ceiling written as
(60000 + interval - 1) / interval and Nat subtraction saturating at 0. -/
def specAllotted (i : Nat) : Nat :=
  COMMANDS_PER_RESET - 2 * ((RESET_DURATION_MILLISECONDS + i - 1) / i)

/-- Messages on the outbound websocket channel, restricted to the
tungstenite variants that the session constructs. -/
inductive TungsteniteMessage where
  | Binary (bytes : List Nat)
  | Close (close_frame : Option (Nat × String))
deriving DecidableEq

/-- Unbounded mpsc sender endpoint, modelled as the queue of messages
already accepted plus whether the receiving half is still alive. A send
succeeds and appends exactly when the receiver is alive. -/
structure UnboundedSender where
  receiverAlive : Bool
  queued : List TungsteniteMessage
deriving DecidableEq

def UnboundedSender.send (tx : UnboundedSender) (m : TungsteniteMessage) :
    UnboundedSender × Bool :=
  if tx.receiverAlive then ({ tx with queued := tx.queued ++ [m] }, true)
  else (tx, false)

/-- leaky_bucket_lite bucket as configured by the session builder calls:
max, tokens, refill_interval (milliseconds) and refill_amount. -/
structure LeakyBucket where
  max : Nat
  tokens : Nat
  refill_interval : Nat
  refill_amount : Nat
deriving DecidableEq

/-- tokio OnceCell holding an Option LeakyBucket: none while never set,
some v once set to v. Setting a full cell fails and leaves the stored
value unchanged, which is exactly what the session code relies on. -/
def onceCellSet (cell : Option (Option LeakyBucket)) (v : Option LeakyBucket) :
    Option (Option LeakyBucket) :=
  match cell with
  | none => some v
  | some w => some w

/-- Type of SessionSendError that occurred. -/
inductive SessionSendErrorType where
  | Sending
  | Serializing
deriving DecidableEq

/-- Embedding of struct Session from shard/processor/session.rs. The
heartbeater_handle and heartbeats fields (a task join handle and the
shared latency state accessed by the heartbeater task) are not part of
the sequential state and are omitted; every other field is kept. Stage is
stored as its u8 representation, as in the source. -/
structure Session where
  heartbeat_interval : Nat
  id : Option String
  seq : Nat
  stage : Nat
  tx : UnboundedSender
  ratelimit : Option (Option LeakyBucket)
deriving DecidableEq

/-- Embedding of Session::disable_ratelimiter: attempt to set the once
cell to None, ignoring failure. -/
def Session.disable_ratelimiter (s : Session) : Session :=
  { s with ratelimit := onceCellSet s.ratelimit none }

/-- Embedding of Session::new: fresh state with interval 0, sequence 0,
default stage, empty once cell; when ratelimit_payloads is false the
ratelimiter is disabled immediately. -/
def Session.new (tx : UnboundedSender) (ratelimit_payloads : Bool) : Session :=
  let session : Session :=
    { heartbeat_interval := 0, id := none, seq := 0, stage := 0, tx := tx,
      ratelimit := none }
  if !ratelimit_payloads then session.disable_ratelimiter else session

/-- Embedding of Session::send. Serialization is the external serde
collaborator, passed in as to_vec; none models an encoding failure. On
encoding failure the call returns the Serializing error; otherwise the
bytes are sent as a Binary message on the outbound channel, and a dropped
receiver yields the Sending error. -/
def Session.send {α : Type} (to_vec : α → Option (List Nat)) (s : Session)
    (payload : α) : Session × Except SessionSendErrorType Unit :=
  match to_vec payload with
  | none => (s, Except.error SessionSendErrorType.Serializing)
  | some bytes =>
    let res := s.tx.send (TungsteniteMessage.Binary bytes)
    if res.2 then ({ s with tx := res.1 }, Except.ok ())
    else ({ s with tx := res.1 }, Except.error SessionSendErrorType.Sending)

/-- Embedding of Session::set_heartbeat_interval: store the interval,
compute the allotment (whose Rust division faults on a zero interval,
hence the Option), and attempt to set the ratelimit once cell to a fresh
leaky bucket, ignoring a failed set. -/
def Session.set_heartbeat_interval (s : Session) (new_heartbeat_interval : Nat) :
    Option Session :=
  let s := { s with heartbeat_interval := new_heartbeat_interval }
  (available_commands_per_interval new_heartbeat_interval).map fun commands_allotted =>
    { s with ratelimit := onceCellSet s.ratelimit (some
        { max := commands_allotted, tokens := commands_allotted,
          refill_interval := RESET_DURATION_MILLISECONDS,
          refill_amount := commands_allotted }) }

/-- Sequentially apply Session.set_heartbeat_interval for each interval of
a list, propagating a fault. -/
def setHeartbeatIntervals (s : Session) : List Nat → Option Session
  | [] => some s
  | i :: rest => (s.set_heartbeat_interval i).bind fun s2 =>
      setHeartbeatIntervals s2 rest

/-- Embedding of struct Latency from gateway/src/latency.rs. Instants and
durations are modelled as Nat milliseconds; recent is the 5 slot ring. -/
structure Latency where
  heartbeats : Nat
  received : Option Nat
  recent : List Nat
  sent : Option Nat
  total_time : Nat
deriving DecidableEq

/-- Maximum number of recent latencies to store (Latency::RECENT_LEN). -/
def RECENT_LEN : Nat := 5

/-- Embedding of Latency::new. -/
def Latency.newTracker : Latency :=
  { heartbeats := 0, received := none, recent := List.replicate RECENT_LEN 0,
    sent := none, total_time := 0 }

/-- Rust slice rotate_right by one: the last element moves to the front
and everything else shifts right. -/
def rotateRight1 (l : List Nat) : List Nat :=
  match l.getLast? with
  | none => l
  | some x => x :: l.dropLast

/-- Write index 0 of a nonempty list. -/
def setIndexZero (l : List Nat) (v : Nat) : List Nat :=
  match l with
  | [] => []
  | _ :: rest => v :: rest

/-- Embedding of Latency::track_sent at the given current instant. -/
def Latency.track_sent (l : Latency) (now : Nat) : Latency :=
  { l with received := none, sent := some now }

/-- Embedding of Latency::track_received at the given current instant:
always set received and bump the counter (u32, wrapping written
explicitly); if a sent instant exists and the elapsed milliseconds fit in
u64, add them to total_time, rotate the ring right by one and overwrite
index 0 with the new sample, otherwise return early. -/
def Latency.track_received (l : Latency) (now : Nat) : Latency :=
  let l := { l with received := some now, heartbeats := (l.heartbeats + 1) % 2 ^ 32 }
  match l.sent with
  | none => l
  | some sentAt =>
    let duration := now - sentAt
    if duration < 2 ^ 64 then
      { l with total_time := (l.total_time + duration) % 2 ^ 64,
               recent := setIndexZero (rotateRight1 l.recent) duration }
    else l

/-- Drive the latency tracker through a list of sent and received instant
pairs, starting from the fresh tracker. -/
def latencyAfterSamples (pairs : List (Nat × Nat)) : Latency :=
  pairs.foldl (fun l p => (l.track_sent p.1).track_received p.2) Latency.newTracker

/-- Latency state after five sent and received pairs whose elapsed times
are 20, 25, 30, 35 and 40 milliseconds, in that order. -/
def latencyAfterFiveSamples : Latency :=
  latencyAfterSamples [(0, 20), (100, 125), (200, 230), (300, 335), (400, 440)]

/-- One more pair with elapsed time 45 milliseconds on top of the five. -/
def latencyAfterSixSamples : Latency :=
  (latencyAfterFiveSamples.track_sent 500).track_received 545

/-- Forward iteration order of Latency::recent (slice iter). -/
def Latency.recentForward (l : Latency) : List Nat := l.recent

/-- Backward iteration order of Latency::recent (slice iter reversed). -/
def Latency.recentBackward (l : Latency) : List Nat := l.recent.reverse

/-- Outcome of a Rust call that may panic: panicked aborts the caller
rather than returning a value. -/
inductive PanicOr (α : Type) where
  | panicked (msg : String)
  | ok (val : α)
deriving DecidableEq

def PanicOr.isPanic {α : Type} : PanicOr α → Bool
  | PanicOr.panicked _ => true
  | PanicOr.ok _ => false

/-- Type of ShardIdError that occurred. -/
inductive ShardIdErrorType where
  | IdTooLarge (id : Nat) (total : Nat)
deriving DecidableEq

/-- Embedding of struct ShardBuilder from shard/builder.rs. The opaque
collaborator fields identify_properties, presence and queue (external
model payloads and a trait object) are carried untouched by every
embedded operation and are omitted; the remaining fields are kept.
Intents and event_types are bitmask words. -/
structure ShardBuilder where
  event_types : Nat
  gateway_url : Option String
  intents : Nat
  large_threshold : Nat
  ratelimit_payloads : Bool
  shard : Nat × Nat
  token : String
deriving DecidableEq

/-- Embedding of ShardBuilder::large_threshold (named with a set suffix
because the structure field of the same name takes the projection name):
a range match that panics below 50 and above 250 and otherwise stores the
value. -/
def ShardBuilder.large_threshold_set (b : ShardBuilder) (large_threshold : Nat) :
    PanicOr ShardBuilder :=
  if large_threshold ≤ 49 then
    PanicOr.panicked "threshold is below 50"
  else if large_threshold ≤ 250 then
    PanicOr.ok { b with large_threshold := large_threshold }
  else
    PanicOr.panicked "threshold is above 250"

/-- Embedding of ShardBuilder::shard (named with a set suffix because the
structure field of the same name takes the projection name): reject
shard_id >= shard_total with IdTooLarge, otherwise store the pair. -/
def ShardBuilder.shard_set (b : ShardBuilder) (shard_id shard_total : Nat) :
    Except ShardIdErrorType ShardBuilder :=
  if shard_id ≥ shard_total then
    Except.error (ShardIdErrorType.IdTooLarge shard_id shard_total)
  else
    Except.ok { b with shard := (shard_id, shard_total) }

/-- Default builder shard configuration used below for witnesses: the
defaults of ShardBuilder::new (shard 0 of 1, threshold 50, ratelimiting
enabled). -/
def defaultShardBuilder : ShardBuilder :=
  { event_types := 0, gateway_url := none, intents := 0, large_threshold := 50,
    ratelimit_payloads := true, shard := (0, 1), token := "Bot token" }

/-- Type of ClusterCommandError that occurred; E is the underlying shard
command failure. -/
inductive ClusterCommandErrorType (E : Type) where
  | Sending (source : E)
  | ShardNonexistent (id : Nat)
deriving DecidableEq

/-- Type of ClusterSendError that occurred; F is the underlying shard
send failure. -/
inductive ClusterSendErrorType (F : Type) where
  | Sending (source : F)
  | ShardNonexistent (id : Nat)
deriving DecidableEq

/-- Embedding of the Cluster shard map: shard index to shard state, as an
association list standing for the HashMap. S is the per shard state. -/
structure Cluster (S : Type) where
  shards : List (Nat × S)

/-- Embedding of Cluster::shard: look up a shard by its ID. -/
def Cluster.shard {S : Type} (c : Cluster S) (id : Nat) : Option S :=
  (c.shards.find? fun p => p.1 = id).map Prod.snd

/-- Replace the state stored under one shard index, leaving every other
entry untouched. -/
def Cluster.update {S : Type} (c : Cluster S) (id : Nat) (sh : S) : Cluster S :=
  ⟨c.shards.map fun p => if p.1 = id then (p.1, sh) else p⟩

/-- Embedding of Cluster::command: look the shard up by ID, fail with
ShardNonexistent when absent, otherwise delegate to Shard::command (the
underlying shard operation is the shard_command parameter, returning its
updated state and its result) and wrap any failure in Sending. -/
def Cluster.command {S V E : Type} (shard_command : S → V → S × Except E Unit)
    (c : Cluster S) (id : Nat) (value : V) :
    Cluster S × Except (ClusterCommandErrorType E) Unit :=
  match c.shard id with
  | none => (c, Except.error (ClusterCommandErrorType.ShardNonexistent id))
  | some sh =>
    let res := shard_command sh value
    (c.update id res.1,
      match res.2 with
      | Except.ok _ => Except.ok ()
      | Except.error e => Except.error (ClusterCommandErrorType.Sending e))

/-- Embedding of Cluster::send: identical routing for raw messages, with
the ClusterSendErrorType error family. -/
def Cluster.send {S M F : Type} (shard_send : S → M → S × Except F Unit)
    (c : Cluster S) (id : Nat) (message : M) :
    Cluster S × Except (ClusterSendErrorType F) Unit :=
  match c.shard id with
  | none => (c, Except.error (ClusterSendErrorType.ShardNonexistent id))
  | some sh =>
    let res := shard_send sh message
    (c.update id res.1,
      match res.2 with
      | Except.ok _ => Except.ok ()
      | Except.error e => Except.error (ClusterSendErrorType.Sending e))

theorem available_eq_heartbeatsPerWindow (i : Nat) (hi : 1 ≤ i) :
    available_commands_per_interval i =
      some (COMMANDS_PER_RESET -
        (if heartbeatsPerWindow i ≤ 255 then heartbeatsPerWindow i else ALLOT_ON_FAIL)
          * 2 % 256) := by
  have hne : i ≠ 0 := Nat.one_le_iff_ne_zero.mp hi
  unfold available_commands_per_interval u64Div u64Mod heartbeatsPerWindow
  simp only [hne, if_neg, ite_false, Option.bind_eq_bind, Option.some_bind]
  by_cases hr : RESET_DURATION_MILLISECONDS % i > 0 <;> simp [hr]

theorem le_heartbeatsPerWindow_mul (i : Nat) (hi : 0 < i) :
    RESET_DURATION_MILLISECONDS ≤ heartbeatsPerWindow i * i := by
  unfold heartbeatsPerWindow
  by_cases hr : RESET_DURATION_MILLISECONDS % i > 0
  · simp only [hr, ite_true]
    have hlt : RESET_DURATION_MILLISECONDS <
        (RESET_DURATION_MILLISECONDS / i + 1) * i :=
      (Nat.div_lt_iff_lt_mul hi).mp (Nat.lt_succ_self _)
    exact Nat.le_of_lt hlt
  · have hdvd : i ∣ RESET_DURATION_MILLISECONDS :=
      Nat.dvd_of_mod_eq_zero (by omega)
    simp only [hr, ite_false, Nat.add_zero]
    rw [Nat.div_mul_cancel hdvd]

theorem heartbeatsPerWindow_le (i k : Nat) (hi : 0 < i)
    (h : RESET_DURATION_MILLISECONDS ≤ k * i) : heartbeatsPerWindow i ≤ k := by
  unfold heartbeatsPerWindow
  by_cases hr : RESET_DURATION_MILLISECONDS % i > 0
  · simp only [hr, ite_true]
    have hne : RESET_DURATION_MILLISECONDS ≠ k * i := by
      intro heq
      have : RESET_DURATION_MILLISECONDS % i = 0 := by
        rw [heq]; exact Nat.mul_mod_left k i
      omega
    have hlt : RESET_DURATION_MILLISECONDS < k * i := Nat.lt_of_le_of_ne h hne
    have : RESET_DURATION_MILLISECONDS / i < k := (Nat.div_lt_iff_lt_mul hi).mpr hlt
    omega
  · simp only [hr, ite_false, Nat.add_zero]
    have hq : RESET_DURATION_MILLISECONDS / i ≤ k * i / i := Nat.div_le_div_right h
    rwa [Nat.mul_div_cancel k hi] at hq

theorem heartbeatsPerWindow_eq_ceil (i : Nat) (hi : 1 ≤ i) :
    heartbeatsPerWindow i = (RESET_DURATION_MILLISECONDS + i - 1) / i := by
  have hi0 : 0 < i := hi
  apply Nat.le_antisymm
  · apply heartbeatsPerWindow_le i _ hi0
    have hdm := Nat.div_add_mod (RESET_DURATION_MILLISECONDS + i - 1) i
    have hlt : (RESET_DURATION_MILLISECONDS + i - 1) % i < i :=
      Nat.mod_lt _ hi0
    have hsum : RESET_DURATION_MILLISECONDS + i - 1
        = RESET_DURATION_MILLISECONDS + (i - 1) := by omega
    rw [Nat.mul_comm]
    set q := (RESET_DURATION_MILLISECONDS + i - 1) / i with hq
    set r := (RESET_DURATION_MILLISECONDS + i - 1) % i with hrdef
    have : i * q + r = RESET_DURATION_MILLISECONDS + (i - 1) := by rw [← hsum]; exact hdm
    calc RESET_DURATION_MILLISECONDS = RESET_DURATION_MILLISECONDS + (i - 1) - (i - 1) := by
          omega
      _ = i * q + r - (i - 1) := by rw [this]
      _ ≤ i * q := by omega
  · rw [Nat.div_le_iff_le_mul_add_pred hi0]
    have := le_heartbeatsPerWindow_mul i hi0
    have hcomm : heartbeatsPerWindow i * i = i * heartbeatsPerWindow i := Nat.mul_comm _ _
    omega

theorem heartbeatsPerWindow_antitone (a b : Nat) (ha : 0 < a) (hab : a ≤ b) :
    heartbeatsPerWindow b ≤ heartbeatsPerWindow a := by
  have hb : 0 < b := lt_of_lt_of_le ha hab
  apply heartbeatsPerWindow_le b (heartbeatsPerWindow a) hb
  calc RESET_DURATION_MILLISECONDS ≤ heartbeatsPerWindow a * a :=
        le_heartbeatsPerWindow_mul a ha
    _ ≤ heartbeatsPerWindow a * b := Nat.mul_le_mul_left _ hab

theorem set_heartbeat_interval_ratelimit_of_isSome (s : Session) (i : Nat)
    (s2 : Session) (hset : s.ratelimit.isSome) (h : s.set_heartbeat_interval i = some s2) :
    s2.ratelimit = s.ratelimit := by
  unfold Session.set_heartbeat_interval at h
  cases hav : available_commands_per_interval i with
  | none => rw [hav] at h; simp at h
  | some v =>
    rw [hav] at h
    simp only [Option.map_some'] at h
    injection h with h
    subst h
    cases hrl : s.ratelimit with
    | none => rw [hrl] at hset; simp at hset
    | some w => simp [onceCellSet, hrl]

theorem setHeartbeatIntervals_preserves_disabled :
    ∀ (l : List Nat) (s s2 : Session), s.ratelimit = some none →
      setHeartbeatIntervals s l = some s2 → s2.ratelimit = some none := by
  intro l
  induction l with
  | nil =>
    intro s s2 hdis h
    unfold setHeartbeatIntervals at h
    cases h
    exact hdis
  | cons i rest ih =>
    intro s s2 hdis h
    unfold setHeartbeatIntervals at h
    cases hone : s.set_heartbeat_interval i with
    | none => rw [hone] at h; simp at h
    | some s1 =>
      rw [hone] at h
      simp only [Option.some_bind] at h
      have h1 : s1.ratelimit = s.ratelimit :=
        set_heartbeat_interval_ratelimit_of_isSome s i s1 (by rw [hdis]; rfl) hone
      exact ih s1 s2 (by rw [h1, hdis]) h

theorem cluster_update_shard_ne {S : Type} (c : Cluster S) (id j : Nat) (sh : S)
    (h : j ≠ id) : (c.update id sh).shard j = c.shard j := by
  obtain ⟨l⟩ := c
  unfold Cluster.update Cluster.shard
  simp only
  induction l with
  | nil => rfl
  | cons p rest ih =>
    simp only [List.map_cons]
    by_cases hpj : p.1 = j
    · have hpid : ¬ p.1 = id := by rw [hpj]; exact h
      have hhead : decide (p.1 = j) = true := decide_eq_true hpj
      rw [if_neg hpid]
      simp only [List.find?, hhead]
    · have hhead : decide ((if p.1 = id then (p.1, sh) else p).1 = j) = false := by
        by_cases hpid : p.1 = id
        · rw [if_pos hpid]; exact decide_eq_false hpj
        · rw [if_neg hpid]; exact decide_eq_false hpj
      have hp2 : decide (p.1 = j) = false := decide_eq_false hpj
      simp only [List.find?, hhead, hp2]
      exact ih

/-- C1: available_commands_per_interval returns 118, 116, 116 and 114 for
the heartbeat intervals 60000, 42500, 30000 and 29999 milliseconds, and
for every interval in the domain where no width overflow occurs (the
doubled heartbeat count fits in u8) the result equals 120 minus twice the
ceiling of 60000 divided by the interval, saturating at 0. -/
theorem available_commands_examples_and_formula :
    available_commands_per_interval 60000 = some 118 ∧
    available_commands_per_interval 42500 = some 116 ∧
    available_commands_per_interval 30000 = some 116 ∧
    available_commands_per_interval 29999 = some 114 ∧
    (∀ i : Nat, 1 ≤ i → heartbeatsPerWindow i * 2 ≤ 255 →
      available_commands_per_interval i = some (specAllotted i)) := by
  refine ⟨by decide, by decide, by decide, by decide, ?_⟩
  intro i hi hfit
  rw [available_eq_heartbeatsPerWindow i hi]
  have h255 : heartbeatsPerWindow i ≤ 255 := by omega
  simp only [h255, ite_true]
  rw [Nat.mod_eq_of_lt (by omega : heartbeatsPerWindow i * 2 < 256)]
  unfold specAllotted
  rw [← heartbeatsPerWindow_eq_ceil i hi]
  have : heartbeatsPerWindow i * 2 = 2 * heartbeatsPerWindow i := Nat.mul_comm _ _
  rw [this]

/-- C1 witness: the formula instantiated at the interval 60000. -/
theorem available_commands_examples_and_formula_witness :
    available_commands_per_interval 60000 = some (specAllotted 60000) :=
  available_commands_examples_and_formula.2.2.2.2 60000 (by decide) (by decide)

/-- C2: for every pathologically small interval the fallback count 110 is
itself doubled and subtracted, so available_commands_per_interval returns
0, not the conservative allotment 110 that the code announces in its own
log message; evaluated here at the intervals 235, 100 and 1, all in the
overflow region. -/
theorem available_commands_overflow_fallback_returns_zero :
    available_commands_per_interval 235 = some 0 ∧
    available_commands_per_interval 100 = some 0 ∧
    available_commands_per_interval 1 = some 0 ∧
    available_commands_per_interval 235 ≠ some (COMMANDS_PER_RESET - 10) := by
  refine ⟨by decide, by decide, by decide, by decide⟩

/-- C4 counterexample: the allotment is not monotone across the u8 wrap
band: 467 is smaller than 473, yet the allotment at 467 is 118 while the
allotment at 473 is 0, because at 467 the doubled heartbeat count 258
wraps to 2 in u8 arithmetic. -/
theorem available_commands_not_monotone :
    (467 : Nat) < 473 ∧
    available_commands_per_interval 467 = some 118 ∧
    available_commands_per_interval 473 = some 0 ∧
    ¬ (118 : Nat) ≤ 0 := by
  refine ⟨by decide, by decide, by decide, by decide⟩

/-- C4 amended: the allotment is monotonically non-increasing as the
interval decreases toward zero, outside the u8 wrap band: for intervals
a < b with a positive, if at a either the doubled heartbeat count fits in
u8 or the count overflows the u8 conversion entirely (fallback region),
then the allotment at a is at most the allotment at b. -/
theorem available_commands_monotone_outside_wrap_band (a b : Nat)
    (ha : 1 ≤ a) (hab : a < b)
    (hvalid : heartbeatsPerWindow a * 2 ≤ 255 ∨ 256 ≤ heartbeatsPerWindow a) :
    ∃ va vb, available_commands_per_interval a = some va ∧
      available_commands_per_interval b = some vb ∧ va ≤ vb := by
  have hb : 1 ≤ b := by omega
  rw [available_eq_heartbeatsPerWindow a ha, available_eq_heartbeatsPerWindow b hb]
  have hba : heartbeatsPerWindow b ≤ heartbeatsPerWindow a :=
    heartbeatsPerWindow_antitone a b ha (Nat.le_of_lt hab)
  rcases hvalid with hfit | hover
  · have ha255 : heartbeatsPerWindow a ≤ 255 := by omega
    have hb255 : heartbeatsPerWindow b ≤ 255 := by omega
    refine ⟨_, _, rfl, rfl, ?_⟩
    simp only [ha255, hb255, ite_true]
    rw [Nat.mod_eq_of_lt (by omega : heartbeatsPerWindow a * 2 < 256),
      Nat.mod_eq_of_lt (by omega : heartbeatsPerWindow b * 2 < 256)]
    omega
  · have ha255 : ¬ heartbeatsPerWindow a ≤ 255 := by omega
    refine ⟨_, _, rfl, rfl, ?_⟩
    simp only [ha255, ite_false]
    have hzero : COMMANDS_PER_RESET - ALLOT_ON_FAIL * 2 % 256 = 0 := by decide
    rw [hzero]
    exact Nat.zero_le _

/-- C4 amended witness: the monotone comparison instantiated at the
intervals 30000 and 60000. -/
theorem available_commands_monotone_outside_wrap_band_witness :
    ∃ va vb, available_commands_per_interval 30000 = some va ∧
      available_commands_per_interval 60000 = some vb ∧ va ≤ vb :=
  available_commands_monotone_outside_wrap_band 30000 60000 (by decide) (by decide)
    (Or.inl (by decide))

/-- C3: after five sent and received pairs with elapsed times of 20, 25,
30, 35 and 40 milliseconds in that order, the recent ring holds the
newest sample at index 0 and the oldest at index 4, so forward iteration
yields newest to oldest, the reverse of what the doc comment on
Latency::recent states; a sixth sample does evict the oldest, again at
the back. -/
theorem latency_recent_ring_newest_first :
    latencyAfterFiveSamples.recentForward = [40, 35, 30, 25, 20] ∧
    latencyAfterFiveSamples.recentForward ≠ [20, 25, 30, 35, 40] ∧
    latencyAfterFiveSamples.recentBackward = [20, 25, 30, 35, 40] ∧
    latencyAfterFiveSamples.heartbeats = 5 ∧
    latencyAfterFiveSamples.total_time = 150 ∧
    latencyAfterSixSamples.recentForward = [45, 40, 35, 30, 25] := by
  refine ⟨by decide, by decide, by decide, by decide, by decide, by decide⟩

/-- C5: a Session constructed with payload rate limiting disabled keeps
the ratelimiter disabled across every later set_heartbeat_interval call,
and in general, once the ratelimit once cell is set, a later
set_heartbeat_interval never changes its value. -/
theorem session_ratelimit_first_set_wins :
    (∀ tx : UnboundedSender, (Session.new tx false).ratelimit = some none) ∧
    (∀ (tx : UnboundedSender) (l : List Nat) (s2 : Session),
      setHeartbeatIntervals (Session.new tx false) l = some s2 →
      s2.ratelimit = some none) ∧
    (∀ (s : Session) (i : Nat) (s2 : Session), s.ratelimit.isSome →
      s.set_heartbeat_interval i = some s2 → s2.ratelimit = s.ratelimit) := by
  refine ⟨fun tx => rfl, ?_, set_heartbeat_interval_ratelimit_of_isSome⟩
  intro tx l s2 h
  exact setHeartbeatIntervals_preserves_disabled l (Session.new tx false) s2 rfl h

/-- C5 witness: one set_heartbeat_interval call on a Session built with
rate limiting disabled leaves the ratelimiter disabled. -/
theorem session_ratelimit_first_set_wins_witness :
    ({ heartbeat_interval := 60000, id := none, seq := 0, stage := 0,
       tx := { receiverAlive := true, queued := [] }, ratelimit := some none } :
        Session).ratelimit = some none :=
  session_ratelimit_first_set_wins.2.1 { receiverAlive := true, queued := [] }
    [60000]
    { heartbeat_interval := 60000, id := none, seq := 0, stage := 0,
      tx := { receiverAlive := true, queued := [] }, ratelimit := some none }
    (by decide)

/-- C6: Session::send fails with the Serializing error exactly when the
JSON encoding fails, fails with the Sending error exactly when the
encoding succeeds but the receiving half of the outbound channel is gone,
and otherwise appends the encoded bytes as a binary message on the
outbound channel and returns success. -/
theorem session_send_error_classification {α : Type} (to_vec : α → Option (List Nat))
    (s : Session) (payload : α) :
    ((s.send to_vec payload).2 = Except.error SessionSendErrorType.Serializing
        ↔ to_vec payload = none) ∧
    ((s.send to_vec payload).2 = Except.error SessionSendErrorType.Sending
        ↔ (to_vec payload).isSome = true ∧ s.tx.receiverAlive = false) ∧
    (∀ bytes, to_vec payload = some bytes → s.tx.receiverAlive = true →
      (s.send to_vec payload).2 = Except.ok () ∧
      (s.send to_vec payload).1.tx.queued
          = s.tx.queued ++ [TungsteniteMessage.Binary bytes]) := by
  cases henc : to_vec payload with
  | none =>
    simp [Session.send, henc]
  | some bytes =>
    cases halive : s.tx.receiverAlive with
    | false =>
      simp [Session.send, henc, UnboundedSender.send, halive]
    | true =>
      simp [Session.send, henc, UnboundedSender.send, halive]

/-- C6 witness: a successful send on a live channel of a concrete session
appends the encoded bytes. -/
theorem session_send_error_classification_witness :
    ((Session.new { receiverAlive := true, queued := [] } true).send
        (fun n : Nat => some [n]) 7).2 = Except.ok () ∧
    ((Session.new { receiverAlive := true, queued := [] } true).send
        (fun n : Nat => some [n]) 7).1.tx.queued
      = (Session.new { receiverAlive := true, queued := [] } true).tx.queued
          ++ [TungsteniteMessage.Binary [7]] :=
  (session_send_error_classification (fun n : Nat => some [n])
    (Session.new { receiverAlive := true, queued := [] } true) 7).2.2 [7] rfl rfl

/-- C7 counterexample: configuring a large member threshold of 49 (or of
251) on the shard builder panics, aborting the caller, instead of
returning an error value synchronously. -/
theorem large_threshold_out_of_range_panics :
    (defaultShardBuilder.large_threshold_set 49).isPanic = true ∧
    (defaultShardBuilder.large_threshold_set 251).isPanic = true := by
  refine ⟨by decide, by decide⟩

/-- C7 amended: a large member threshold outside the 50 to 250 inclusive
range makes the shard builder panic, as its own doc comment documents,
while values within the range are accepted and stored. -/
theorem large_threshold_panics_amended (b : ShardBuilder) (v : Nat) :
    (50 ≤ v → v ≤ 250 →
      b.large_threshold_set v = PanicOr.ok { b with large_threshold := v }) ∧
    ((v ≤ 49 ∨ 251 ≤ v) → (b.large_threshold_set v).isPanic = true) := by
  unfold ShardBuilder.large_threshold_set
  constructor
  · intro h1 h2
    rw [if_neg (by omega), if_pos (by omega)]
  · intro h
    rcases h with h | h
    · rw [if_pos (by omega)]
      rfl
    · rw [if_neg (by omega), if_neg (by omega)]
      rfl

/-- C7 amended witness: the in range value 100 is stored and the out of
range value 300 panics, on the default builder. -/
theorem large_threshold_panics_amended_witness :
    defaultShardBuilder.large_threshold_set 100
      = PanicOr.ok { defaultShardBuilder with large_threshold := 100 } ∧
    (defaultShardBuilder.large_threshold_set 300).isPanic = true :=
  ⟨(large_threshold_panics_amended defaultShardBuilder 100).1 (by decide) (by decide),
   (large_threshold_panics_amended defaultShardBuilder 300).2 (Or.inr (by decide))⟩

/-- C8: Cluster::command and Cluster::send fail with a ShardNonexistent
error carrying the index when it is absent from the shard map, leaving
the cluster untouched; when the index is present they delegate to that
shard, wrap any underlying failure in a Sending error, and leave every
other shard index unaffected. -/
theorem cluster_routing {S V E M F : Type}
    (shard_command : S → V → S × Except E Unit)
    (shard_send : S → M → S × Except F Unit)
    (c : Cluster S) (id : Nat) (value : V) (message : M) :
    (c.shard id = none →
      Cluster.command shard_command c id value
          = (c, Except.error (ClusterCommandErrorType.ShardNonexistent id)) ∧
      Cluster.send shard_send c id message
          = (c, Except.error (ClusterSendErrorType.ShardNonexistent id))) ∧
    (∀ sh, c.shard id = some sh →
      ((Cluster.command shard_command c id value).2
          = (match (shard_command sh value).2 with
             | Except.ok _ => Except.ok ()
             | Except.error e => Except.error (ClusterCommandErrorType.Sending e)) ∧
       (Cluster.send shard_send c id message).2
          = (match (shard_send sh message).2 with
             | Except.ok _ => Except.ok ()
             | Except.error e => Except.error (ClusterSendErrorType.Sending e)) ∧
       (∀ j, j ≠ id →
         (Cluster.command shard_command c id value).1.shard j = c.shard j ∧
         (Cluster.send shard_send c id message).1.shard j = c.shard j))) := by
  constructor
  · intro habs
    unfold Cluster.command Cluster.send
    rw [habs]
    exact ⟨rfl, rfl⟩
  · intro sh hpres
    unfold Cluster.command Cluster.send
    rw [hpres]
    refine ⟨rfl, rfl, ?_⟩
    intro j hj
    exact ⟨cluster_update_shard_ne c id j _ hj, cluster_update_shard_ne c id j _ hj⟩

/-- C8 witness: routing to the absent index 3 of a one shard cluster
fails with ShardNonexistent 3 and leaves the cluster unchanged. -/
theorem cluster_routing_witness :
    Cluster.command (fun (s : Nat) (_ : Nat) => (s, (Except.ok () : Except String Unit)))
        ⟨[(0, 7)]⟩ 3 0
      = (⟨[(0, 7)]⟩, Except.error (ClusterCommandErrorType.ShardNonexistent 3)) ∧
    Cluster.send (fun (s : Nat) (_ : Nat) => (s, (Except.ok () : Except String Unit)))
        ⟨[(0, 7)]⟩ 3 0
      = (⟨[(0, 7)]⟩, Except.error (ClusterSendErrorType.ShardNonexistent 3)) :=
  (cluster_routing (fun (s : Nat) (_ : Nat) => (s, (Except.ok () : Except String Unit)))
    (fun (s : Nat) (_ : Nat) => (s, (Except.ok () : Except String Unit)))
    ⟨[(0, 7)]⟩ 3 0 0).1 rfl

/-- C9: ShardBuilder::shard returns the IdTooLarge error carrying the
pair when the index is at least the total, and stores the pair in the
configuration when the index is below the total. -/
theorem shard_id_construction (b : ShardBuilder) (shard_id shard_total : Nat) :
    (shard_id ≥ shard_total →
      b.shard_set shard_id shard_total
        = Except.error (ShardIdErrorType.IdTooLarge shard_id shard_total)) ∧
    (shard_id < shard_total →
      b.shard_set shard_id shard_total
        = Except.ok { b with shard := (shard_id, shard_total) }) := by
  unfold ShardBuilder.shard_set
  constructor
  · intro h
    rw [if_pos h]
  · intro h
    rw [if_neg (by omega)]

/-- C9 witness: the pair (0, 1) is accepted and stored and the pair
(5, 3) is rejected with IdTooLarge 5 3, on the default builder. -/
theorem shard_id_construction_witness :
    defaultShardBuilder.shard_set 0 1
      = Except.ok { defaultShardBuilder with shard := (0, 1) } ∧
    defaultShardBuilder.shard_set 5 3
      = Except.error (ShardIdErrorType.IdTooLarge 5 3) :=
  ⟨(shard_id_construction defaultShardBuilder 0 1).2 (by decide),
   (shard_id_construction defaultShardBuilder 5 3).1 (by decide)⟩

/-- C10: available_commands_per_interval and Session.set_heartbeat_interval
divide 60000 by the heartbeat interval with no zero guard: both return a
value for every interval of at least 1, while at interval 0 the division
operator itself faults, so a nonzero interval is a required
precondition. -/
theorem heartbeat_interval_division_totality :
    (∀ (i : Nat) (s : Session), 1 ≤ i →
      (available_commands_per_interval i).isSome = true ∧
      (s.set_heartbeat_interval i).isSome = true) ∧
    available_commands_per_interval 0 = none ∧
    (∀ s : Session, s.set_heartbeat_interval 0 = none) := by
  refine ⟨?_, rfl, fun s => rfl⟩
  intro i s hi
  have h := available_eq_heartbeatsPerWindow i hi
  constructor
  · rw [h]; rfl
  · unfold Session.set_heartbeat_interval
    rw [h]
    rfl

/-- C10 witness: the totality instantiated at the interval 60000 on a
concrete session. -/
theorem heartbeat_interval_division_totality_witness :
    (available_commands_per_interval 60000).isSome = true ∧
    ((Session.new { receiverAlive := true, queued := [] } true).set_heartbeat_interval
      60000).isSome = true :=
  heartbeat_interval_division_totality.1 60000
    (Session.new { receiverAlive := true, queued := [] } true) (by decide)

end Twilight
